import Mathlib

/-!
Verification of the sentry-log4rs adapter core (src/lib.rs) as a shallow
embedding.  Machine behaviour modelled:

* `log::Level` and `log::LevelFilter` with their `usize` discriminants, so that
  the Rust comparison `record.level() > self.threshold` becomes a comparison of
  the corresponding naturals.
* `sentry::Level` (the monitoring severity scale) and `level_mapping`.
* `SentryAppender::append`: threshold short-circuit, encoding to bytes,
  `String::from_utf8` validation, event construction (message, logger,
  extra["file"], extra["line"], tags["module_path"]), and the capture of the
  event.  Since the embedding is pure, `append` returns the captured event (or
  `none` when the record is dropped) instead of performing the side effect, and
  rendering failures are surfaced as `Except.error` mirroring the `?` operator.
* The builder (`SentryAppenderBuilder`) and the declarative deserializer
  (`SentryAppenderDeserializer::deserialize`), with the encoder registry
  modelled as a function from encoder configurations to encoders.

The `ClientInitGuard` returned by `sentry::init` carries no behaviour relevant
to the claims (it only keeps the client session alive) and is omitted from the
adapter state.
-/

namespace SentryLog4rs

/-- Host severity scale, `log::Level`.  Discriminants follow the log crate:
Error = 1 ... Trace = 5 (numerically larger means less severe). -/
inductive Level where
  | Error
  | Warn
  | Info
  | Debug
  | Trace
deriving DecidableEq

/-- The `usize` discriminant of a `log::Level`, used by its `Ord` instance. -/
def Level.toNat : Level → Nat
  | .Error => 1
  | .Warn => 2
  | .Info => 3
  | .Debug => 4
  | .Trace => 5

/-- Threshold scale, `log::LevelFilter`: the levels plus `Off` (discriminant 0). -/
inductive LevelFilter where
  | Off
  | Error
  | Warn
  | Info
  | Debug
  | Trace
deriving DecidableEq

/-- The `usize` discriminant of a `log::LevelFilter`. -/
def LevelFilter.toNat : LevelFilter → Nat
  | .Off => 0
  | .Error => 1
  | .Warn => 2
  | .Info => 3
  | .Debug => 4
  | .Trace => 5

/-- The filter naming the same severity as a given level
(`log::Level::to_level_filter`). -/
def LevelFilter.ofLevel : Level → LevelFilter
  | .Error => .Error
  | .Warn => .Warn
  | .Info => .Info
  | .Debug => .Debug
  | .Trace => .Trace

/-- Monitoring severity scale, `sentry::Level`. -/
inductive SentryLevel where
  | Debug
  | Info
  | Warning
  | Error
  | Fatal
deriving DecidableEq

/-- `level_mapping` from src/lib.rs: host severity to monitoring severity. -/
def level_mapping : Level → SentryLevel
  | .Error => .Error
  | .Warn => .Warning
  | .Info => .Info
  | .Debug => .Debug
  | .Trace => .Debug

/-- A host log record (`log::Record`), restricted to the fields the adapter
reads: severity, target, the message payload (`args`, rendered by the
encoder), and the optional file / line / module-path metadata. -/
structure Record where
  level : Level
  target : String
  msg : String
  file : Option String
  line : Option Nat
  module_path : Option String
deriving DecidableEq

/-- JSON-ish values stored in an event's `extra` map (`sentry::protocol::Value`),
restricted to the two variants the adapter produces. -/
inductive Value where
  | str (s : String)
  | num (n : Nat)
deriving DecidableEq

/-- A monitoring event (`sentry::protocol::Event`), restricted to the fields
the adapter populates.  `extra` and `tags` are association lists in insertion
order. -/
structure Event where
  level : SentryLevel
  message : Option String
  logger : Option String
  extra : List (String × Value)
  tags : List (String × String)
deriving DecidableEq

/-- `sentry::protocol::Event::new()`: default level Error, everything else
empty. -/
def Event.new : Event :=
  { level := .Error, message := none, logger := none, extra := [], tags := [] }

/-- Map insertion (`BTreeMap::insert`).  The adapter only ever inserts distinct
keys into an initially empty map, so appending is faithful. -/
def mapInsert {α : Type} (m : List (String × α)) (k : String) (v : α) :
    List (String × α) :=
  m ++ [(k, v)]

/-- The message-encoder capability (`dyn log4rs::encode::Encode`): renders a
record into a byte buffer or fails. -/
structure Encoder where
  encode : Record → Except Unit (List Nat)

/-- Whether a byte is a UTF-8 continuation byte (10xxxxxx). -/
def isCont (b : Nat) : Bool :=
  decide (0x80 ≤ b ∧ b < 0xC0)

/-- Strict UTF-8 decoding of a byte list into characters, rejecting overlong
encodings, surrogates and out-of-range code points, as `String::from_utf8`
does. -/
def utf8DecodeChars : List Nat → Option (List Char)
  | [] => some []
  | b :: rest =>
    if b < 0x80 then
      (utf8DecodeChars rest).map (fun cs => Char.ofNat b :: cs)
    else if b < 0xC2 then
      none
    else if b < 0xE0 then
      match rest with
      | b1 :: rest1 =>
        if isCont b1 then
          (utf8DecodeChars rest1).map
            (fun cs => Char.ofNat ((b - 0xC0) * 0x40 + (b1 - 0x80)) :: cs)
        else none
      | [] => none
    else if b < 0xF0 then
      match rest with
      | b1 :: b2 :: rest2 =>
        if isCont b1 ∧ isCont b2 ∧ (b = 0xE0 → 0xA0 ≤ b1) ∧ (b = 0xED → b1 < 0xA0) then
          (utf8DecodeChars rest2).map
            (fun cs =>
              Char.ofNat ((b - 0xE0) * 0x1000 + (b1 - 0x80) * 0x40 + (b2 - 0x80)) :: cs)
        else none
      | _ => none
    else if b < 0xF5 then
      match rest with
      | b1 :: b2 :: b3 :: rest3 =>
        if isCont b1 ∧ isCont b2 ∧ isCont b3 ∧ (b = 0xF0 → 0x90 ≤ b1) ∧ (b = 0xF4 → b1 < 0x90) then
          (utf8DecodeChars rest3).map
            (fun cs =>
              Char.ofNat
                ((b - 0xF0) * 0x40000 + (b1 - 0x80) * 0x1000 + (b2 - 0x80) * 0x40
                  + (b3 - 0x80)) :: cs)
        else none
      | _ => none
    else none

/-- `String::from_utf8`: succeeds exactly on valid UTF-8. -/
def from_utf8 (bs : List Nat) : Option String :=
  (utf8DecodeChars bs).map String.mk

/-- UTF-8 encoding of one character. -/
def utf8EncodeChar (c : Char) : List Nat :=
  let n := c.toNat
  if n < 0x80 then [n]
  else if n < 0x800 then [0xC0 + n / 0x40, 0x80 + n % 0x40]
  else if n < 0x10000 then
    [0xE0 + n / 0x1000, 0x80 + (n / 0x40) % 0x40, 0x80 + n % 0x40]
  else
    [0xF0 + n / 0x40000, 0x80 + (n / 0x1000) % 0x40, 0x80 + (n / 0x40) % 0x40,
      0x80 + n % 0x40]

/-- UTF-8 encoding of a string, as Rust's `str::as_bytes`. -/
def utf8Encode (s : String) : List Nat :=
  (s.data.map utf8EncodeChar).flatten

/-- `PatternEncoder::new("{m}")`: the passthrough pattern encoder that writes
exactly the record's message, as UTF-8 bytes, and never fails. -/
def patternEncoderM : Encoder :=
  ⟨fun r => .ok (utf8Encode r.msg)⟩

/-- The adapter state (`SentryAppender`): the configured encoder and threshold.
The `_sentry : ClientInitGuard` field only keeps the client session alive and
plays no part in `append`/`flush`, so it is not modelled. -/
structure SentryAppender where
  encoder : Encoder
  threshold : LevelFilter

/-- The two ways `append` can fail: the encoder's `?` and `String::from_utf8`'s
`?`. -/
inductive AppendError where
  | encodeFailed
  | invalidUtf8
deriving DecidableEq

/-- The translation part of `SentryAppender::append` (lines 114-143): render
the message, validate it as UTF-8, and build the event that is handed to
`sentry::capture_event`. -/
def translate (a : SentryAppender) (r : Record) : Except AppendError Event :=
  match a.encoder.encode r with
  | .error _ => .error .encodeFailed
  | .ok buf =>
    match from_utf8 buf with
    | none => .error .invalidUtf8
    | some msg =>
      let e1 := { Event.new with
                    level := level_mapping r.level
                    message := some msg
                    logger := some r.target }
      let e2 := match r.file with
        | some f => { e1 with extra := mapInsert e1.extra "file" (.str f) }
        | none => e1
      let e3 := match r.line with
        | some l => { e2 with extra := mapInsert e2.extra "line" (.num l) }
        | none => e2
      let e4 := match r.module_path with
        | some m => { e3 with tags := mapInsert e3.tags "module_path" m }
        | none => e3
      .ok e4

/-- `SentryAppender::append`.  Returns `ok none` when the record is dropped by
the threshold check (`record.level() > self.threshold`), `ok (some ev)` when
event `ev` was captured, and `error` when rendering failed. -/
def SentryAppender.append (a : SentryAppender) (r : Record) :
    Except AppendError (Option Event) :=
  if r.level.toNat > a.threshold.toNat then
    .ok none
  else
    (translate a r).map some

/-- `SentryAppender::flush`: empty body.  Modelled as producing no event and
leaving the adapter state unchanged. -/
def SentryAppender.flush (a : SentryAppender) : Option Event × SentryAppender :=
  (none, a)

/-- Builder state (`SentryAppenderBuilder`): optional encoder, DSN string,
optional threshold.  The fields carry an `Opt`/`Str` suffix only because Lean
does not let a method share its structure's field name. -/
structure SentryAppenderBuilder where
  encoderOpt : Option Encoder
  dsnStr : String
  thresholdOpt : Option LevelFilter

/-- `SentryAppender::builder()`: no encoder, empty DSN, no threshold. -/
def SentryAppender.builder : SentryAppenderBuilder :=
  { encoderOpt := none, dsnStr := "", thresholdOpt := none }

/-- `SentryAppenderBuilder::encoder`. -/
def SentryAppenderBuilder.encoder (b : SentryAppenderBuilder) (e : Encoder) :
    SentryAppenderBuilder :=
  { b with encoderOpt := some e }

/-- `SentryAppenderBuilder::dsn` (takes a string slice; both it and
`dsn_string` just store the string). -/
def SentryAppenderBuilder.dsn (b : SentryAppenderBuilder) (d : String) :
    SentryAppenderBuilder :=
  { b with dsnStr := d }

/-- `SentryAppenderBuilder::dsn_string` (private; used by the deserializer). -/
def SentryAppenderBuilder.dsn_string (b : SentryAppenderBuilder) (d : String) :
    SentryAppenderBuilder :=
  { b with dsnStr := d }

/-- `SentryAppenderBuilder::threshold`. -/
def SentryAppenderBuilder.threshold (b : SentryAppenderBuilder) (t : LevelFilter) :
    SentryAppenderBuilder :=
  { b with thresholdOpt := some t }

/-- `SentryAppenderBuilder::build`: resolves the encoder default
(`PatternEncoder::new("{m}")`) and the threshold default (`Error`).  The
`sentry::init(self.dsn)` call only produces the `ClientInitGuard` kept alive by
the adapter; it contributes nothing to `append`/`flush` behaviour and is not
modelled. -/
def SentryAppenderBuilder.build (b : SentryAppenderBuilder) : SentryAppender :=
  { encoder := b.encoderOpt.getD patternEncoderM
    threshold := b.thresholdOpt.getD .Error }

/-- A nested encoder configuration (`log4rs::encode::EncoderConfig`): a kind
name plus an opaque configuration payload. -/
structure EncoderConfig where
  kind : String
  config : List (String × Value)
deriving DecidableEq

/-- The deserializer registry (`log4rs::config::Deserializers`), seen through
the one operation the adapter uses: resolving a nested encoder configuration
into an encoder instance, possibly failing. -/
def Deserializers : Type :=
  EncoderConfig → Except Unit Encoder

/-- `SentryAppenderConfig` after serde parsing: required dsn, optional nested
encoder configuration, required threshold. -/
structure SentryAppenderConfig where
  dsn : String
  encoder : Option EncoderConfig
  threshold : LevelFilter

/-- `SentryAppenderDeserializer::deserialize`: populate a builder from the
parsed configuration (encoder resolved through the registry when present) and
delegate to `build`. -/
def SentryAppenderDeserializer.deserialize (config : SentryAppenderConfig)
    (deserializers : Deserializers) : Except Unit SentryAppender := do
  let appender := SentryAppender.builder
  let appender ← match config.encoder with
    | some encoder => do
      let e ← deserializers encoder
      pure (appender.encoder e)
    | none => pure appender
  let appender := appender.dsn_string config.dsn
  let appender := appender.threshold config.threshold
  pure appender.build

/-- Raw values appearing in a declarative configuration document. -/
inductive RawValue where
  | str (s : String)
  | num (n : Nat)
  | sev (t : LevelFilter)
  | enc (e : EncoderConfig)
deriving DecidableEq

/-- Modelled from the spec: the serde-generated strict deserializer for
`SentryAppenderConfig` (the source only carries the derive declaration with
`#[serde(deny_unknown_fields)]`; the generated parsing code is not in src/).
A document is a list of key/value pairs; any key other than `dsn`, `encoder`
and `threshold` is a configuration error, `dsn` and `threshold` are required,
and `encoder` is optional. -/
def parseConfig (doc : List (String × RawValue)) :
    Except Unit SentryAppenderConfig :=
  if doc.all (fun kv => kv.1 == "dsn" || kv.1 == "encoder" || kv.1 == "threshold") then
    match doc.lookup "dsn", doc.lookup "threshold" with
    | some (.str d), some (.sev t) =>
      match doc.lookup "encoder" with
      | none => .ok { dsn := d, encoder := none, threshold := t }
      | some (.enc e) => .ok { dsn := d, encoder := some e, threshold := t }
      | some _ => .error ()
    | _, _ => .error ()
  else
    .error ()

/-- Severity rank following the spec's ordering Error > Warning > Info >
Debug > Trace: larger means more severe.  This is the spec-side notion used to
compare the code's filter against the spec's wording. -/
def Level.specSeverity : Level → Nat
  | .Error => 4
  | .Warn => 3
  | .Info => 2
  | .Debug => 1
  | .Trace => 0

/-- Spec-side eligibility relation: `s` is at least as severe as `t`. -/
def specAtLeastAsSevere (s t : Level) : Prop :=
  Level.specSeverity t ≤ Level.specSeverity s

/-- Whether an `append` outcome forwarded the record to the translator: every
outcome except the threshold short-circuit `ok none`. -/
def forwarded (x : Except AppendError (Option Event)) : Bool :=
  match x with
  | .ok none => false
  | _ => true

/-- Whether rendering the record's message fails under the adapter's encoder:
either the encoder errors, or its byte output is not valid UTF-8. -/
def renderFails (a : SentryAppender) (r : Record) : Prop :=
  match a.encoder.encode r with
  | .error _ => True
  | .ok buf => from_utf8 buf = none

/-- Apply an optional encoder to a builder: the spec's "builder with the same
encoder" when the encoder may be left unset. -/
def withEncoderOpt (b : SentryAppenderBuilder) (e : Option Encoder) :
    SentryAppenderBuilder :=
  match e with
  | none => b
  | some enc => b.encoder enc

/-- The registry resolves an optional encoder configuration to an optional
encoder instance. -/
def resolves (ds : Deserializers) (ec : Option EncoderConfig)
    (e : Option Encoder) : Prop :=
  match ec with
  | none => e = none
  | some c => ∃ enc, ds c = .ok enc ∧ e = some enc

theorem forwarded_map_some (x : Except AppendError Event) :
    forwarded (x.map some) = true := by
  cases x <;> rfl

theorem forwarded_append (a : SentryAppender) (r : Record) :
    forwarded (a.append r) = decide (r.level.toNat ≤ a.threshold.toNat) := by
  unfold SentryAppender.append
  by_cases h : r.level.toNat > a.threshold.toNat
  · rw [if_pos h]
    have : ¬ r.level.toNat ≤ a.threshold.toNat := by omega
    simp [forwarded, this]
  · rw [if_neg h, forwarded_map_some]
    have : r.level.toNat ≤ a.threshold.toNat := by omega
    simp [this]

/-- C1: for every record and every adapter whose threshold is the filter of a
severity `t`, `append` forwards the record (reaches the translator) if and
only if the record's severity is at least as severe as `t` under the ordering
Error > Warning > Info > Debug > Trace; in particular equal severity is
eligible. -/
theorem append_forwards_iff_at_least_as_severe (e : Encoder) (t : Level)
    (r : Record) :
    forwarded (SentryAppender.append ⟨e, .ofLevel t⟩ r) = true ↔
      specAtLeastAsSevere r.level t := by
  rw [forwarded_append]
  rcases r with ⟨lv, tgt, m, f, ln, mp⟩
  cases lv <;> cases t <;> simp [Level.toNat, LevelFilter.ofLevel,
    LevelFilter.toNat, specAtLeastAsSevere, Level.specSeverity]

/-- C2: `level_mapping` realises exactly the fixed total mapping
Error→Error, Warning→Warning, Info→Info, Debug→Debug, Trace→Debug over the
whole host severity enumeration. -/
theorem level_mapping_canonical :
    level_mapping .Error = .Error ∧ level_mapping .Warn = .Warning ∧
      level_mapping .Info = .Info ∧ level_mapping .Debug = .Debug ∧
      level_mapping .Trace = .Debug :=
  ⟨rfl, rfl, rfl, rfl, rfl⟩

/-- C9: `flush` is a no-op: it produces no event and leaves the adapter state
(encoder and threshold alike) unchanged. -/
theorem flush_noop (a : SentryAppender) : a.flush = (none, a) :=
  rfl

/-- C10: with threshold `Off` (discriminant 0, below every severity), `append`
returns success and produces no event for every record of every severity, for
every encoder — the encoder is never consulted. -/
theorem append_threshold_off_drops_all (e : Encoder) (r : Record) :
    SentryAppender.append ⟨e, .Off⟩ r = .ok none := by
  rcases r with ⟨lv, tgt, m, f, ln, mp⟩
  cases lv <;> rfl

/-- C3: for an eligible record whose message renders successfully, `append`
captures exactly one event whose severity is the mapped severity, whose
message is the rendered string verbatim, whose logger is the record's target
verbatim, and whose extra["file"], extra["line"] (numeric) and
tags["module_path"] entries are present exactly when the corresponding record
field is; an absent optional field yields no key at all. -/
theorem append_translates_eligible_record (a : SentryAppender) (r : Record)
    (buf : List Nat) (msg : String)
    (hpass : r.level.toNat ≤ a.threshold.toNat)
    (henc : a.encoder.encode r = .ok buf)
    (hdec : from_utf8 buf = some msg) :
    ∃ ev, a.append r = .ok (some ev) ∧
      ev.level = level_mapping r.level ∧
      ev.message = some msg ∧
      ev.logger = some r.target ∧
      ev.extra.lookup "file" = r.file.map Value.str ∧
      ev.extra.lookup "line" = r.line.map Value.num ∧
      ev.tags.lookup "module_path" = r.module_path := by
  have hnd : ¬ r.level.toNat > a.threshold.toNat := by omega
  rcases r with ⟨lv, tgt, m, f, ln, mp⟩
  simp only [SentryAppender.append, if_neg hnd, translate, henc, hdec]
  cases f <;> cases ln <;> cases mp <;>
    exact ⟨_, rfl, rfl, rfl, rfl, rfl, rfl, rfl⟩

/-- C4: a record strictly less severe than the configured threshold makes
`append` return success with no event, independently of the encoder (any two
encoders give the same dropped outcome), so the threshold check short-circuits
before any rendering. -/
theorem append_below_threshold_noop (e1 e2 : Encoder) (t : Level) (r : Record)
    (h : r.level.specSeverity < t.specSeverity) :
    SentryAppender.append ⟨e1, .ofLevel t⟩ r = .ok none ∧
      SentryAppender.append ⟨e2, .ofLevel t⟩ r = .ok none := by
  have hgt : r.level.toNat > (LevelFilter.ofLevel t).toNat := by
    revert h
    generalize r.level = lv
    cases lv <;> cases t <;> decide
  constructor <;> simp [SentryAppender.append, hgt]

/-- C5: `append` fails exactly when the record is eligible and its message
rendering fails (encoder error, or bytes that are not valid UTF-8); on failure
no event is captured (the result carries none), and a below-threshold record
is never reported as a failure. -/
theorem append_error_iff_render_failure (a : SentryAppender) (r : Record) :
    (∃ err, a.append r = .error err) ↔
      (r.level.toNat ≤ a.threshold.toNat ∧ renderFails a r) := by
  unfold SentryAppender.append renderFails
  by_cases h : r.level.toNat > a.threshold.toNat
  · have hle : ¬ r.level.toNat ≤ a.threshold.toNat := by omega
    simp [if_pos h, hle]
  · have hle : r.level.toNat ≤ a.threshold.toNat := by omega
    rw [if_neg h]
    unfold translate
    cases henc : a.encoder.encode r with
    | error e => simp [henc, Except.map, hle]
    | ok buf =>
      cases hdec : from_utf8 buf with
      | none => simp [henc, hdec, Except.map, hle]
      | some msg => simp [henc, hdec, Except.map]

/-- C6: when the registry resolves the configuration's optional encoder to
`e`, the declarative deserializer succeeds and the adapter it produces has
exactly the append behaviour (filtering and translation) of the adapter the
programmatic builder produces from the same target, encoder and threshold. -/
theorem deserialize_builder_equiv (cfg : SentryAppenderConfig)
    (ds : Deserializers) (e : Option Encoder)
    (h : resolves ds cfg.encoder e) :
    ∃ a, SentryAppenderDeserializer.deserialize cfg ds = .ok a ∧
      ∀ r, a.append r =
        ((((withEncoderOpt SentryAppender.builder e).dsn cfg.dsn).threshold
            cfg.threshold).build).append r := by
  rcases cfg with ⟨d, ec, t⟩
  cases ec with
  | none =>
    simp only [resolves] at h
    subst h
    exact ⟨_, rfl, fun r => rfl⟩
  | some c =>
    rcases h with ⟨enc, hds, he⟩
    subst he
    refine ⟨_, ?_, fun r => rfl⟩
    simp only [SentryAppenderDeserializer.deserialize, hds, withEncoderOpt,
      bind, Except.bind, pure]
    rfl

/-- C7: `build` resolves unset fields to the defaults: the encoder becomes the
passthrough pattern encoder for "{m}" and the threshold becomes Error, so that
the resulting adapter drops any Warning-level record and forwards any
Error-level record. -/
theorem build_resolves_defaults (d : String) :
    ((SentryAppender.builder.dsn d).build).encoder = patternEncoderM ∧
      ((SentryAppender.builder.dsn d).build).threshold = .Error ∧
      (∀ r : Record,
        ((SentryAppender.builder.dsn d).build).append { r with level := .Warn } =
          .ok none) ∧
      (∀ r : Record,
        forwarded
          (((SentryAppender.builder.dsn d).build).append
            { r with level := .Error }) = true) := by
  refine ⟨rfl, rfl, fun r => rfl, fun r => ?_⟩
  rw [forwarded_append]
  rfl

/-- C8: a declarative configuration document that contains any top-level key
other than dsn, encoder and threshold is rejected by the strict configuration
parser. -/
theorem parseConfig_rejects_unknown_key (doc : List (String × RawValue))
    (k : String) (v : RawValue) (hmem : (k, v) ∈ doc)
    (hk : k ≠ "dsn" ∧ k ≠ "encoder" ∧ k ≠ "threshold") :
    parseConfig doc = .error () := by
  unfold parseConfig
  rw [if_neg]
  intro hall
  rw [List.all_eq_true] at hall
  have hkv := hall (k, v) hmem
  simp only [Bool.or_eq_true, beq_iff_eq] at hkv
  rcases hk with ⟨h1, h2, h3⟩
  rcases hkv with hkv | hkv | hkv <;> simp_all

/-- A concrete record used to instantiate the conditional theorems. -/
def wRec : Record :=
  { level := .Error, target := "app", msg := "hi", file := some "a.rs",
    line := some 42, module_path := some "app::mod" }

/-- A concrete adapter with the default encoder and an Error threshold. -/
def wApp : SentryAppender :=
  { encoder := patternEncoderM, threshold := .Error }

/-- A concrete Warning-level record. -/
def wRecWarn : Record :=
  { level := .Warn, target := "app", msg := "hi", file := none, line := none,
    module_path := none }

/-- An encoder that always fails, to exercise encoder-independence. -/
def failingEncoder : Encoder :=
  ⟨fun _ => .error ()⟩

/-- A concrete declarative configuration with the encoder left unset. -/
def wCfg : SentryAppenderConfig :=
  { dsn := "X", encoder := none, threshold := .Error }

/-- A registry that resolves nothing, usable when the encoder is unset. -/
def wDs : Deserializers :=
  fun _ => .error ()

/-- A concrete configuration document with the unknown key "foo". -/
def wDoc : List (String × RawValue) :=
  [("dsn", .str "X"), ("foo", .num 1)]

theorem append_translates_eligible_record_witness :
    wRec.level.toNat ≤ wApp.threshold.toNat ∧
      wApp.encoder.encode wRec = .ok (utf8Encode "hi") ∧
      from_utf8 (utf8Encode "hi") = some "hi" ∧
      ∃ ev, wApp.append wRec = .ok (some ev) ∧
        ev.level = level_mapping wRec.level ∧
        ev.message = some "hi" ∧
        ev.logger = some wRec.target ∧
        ev.extra.lookup "file" = wRec.file.map Value.str ∧
        ev.extra.lookup "line" = wRec.line.map Value.num ∧
        ev.tags.lookup "module_path" = wRec.module_path :=
  ⟨by decide, rfl, by decide,
    append_translates_eligible_record wApp wRec (utf8Encode "hi") "hi"
      (by decide) rfl (by decide)⟩

theorem append_below_threshold_noop_witness :
    wRecWarn.level.specSeverity < Level.specSeverity .Error ∧
      (SentryAppender.append ⟨patternEncoderM, .ofLevel .Error⟩ wRecWarn =
          .ok none ∧
        SentryAppender.append ⟨failingEncoder, .ofLevel .Error⟩ wRecWarn =
          .ok none) :=
  ⟨by decide,
    append_below_threshold_noop patternEncoderM failingEncoder .Error wRecWarn
      (by decide)⟩

theorem deserialize_builder_equiv_witness :
    resolves wDs wCfg.encoder none ∧
      ∃ a, SentryAppenderDeserializer.deserialize wCfg wDs = .ok a ∧
        ∀ r, a.append r =
          ((((withEncoderOpt SentryAppender.builder none).dsn wCfg.dsn).threshold
              wCfg.threshold).build).append r :=
  ⟨rfl, deserialize_builder_equiv wCfg wDs none rfl⟩

theorem parseConfig_rejects_unknown_key_witness :
    ("foo", RawValue.num 1) ∈ wDoc ∧
      ("foo" ≠ "dsn" ∧ "foo" ≠ "encoder" ∧ "foo" ≠ "threshold") ∧
      parseConfig wDoc = .error () :=
  ⟨by decide, by decide,
    parseConfig_rejects_unknown_key wDoc "foo" (.num 1) (by decide) (by decide)⟩

end SentryLog4rs
